import Mathlib

/-!
Verification of the EdgeWorkers age-gate (src/main.ts) against its
specification, via a shallow embedding.

Modelling conventions:
* A JavaScript number that may be NaN is modelled as `Option Int`
  (`none` = NaN); every number this program manipulates is integral.
* A `Date` value is its epoch offset in milliseconds (`Int`), with `none`
  standing for an Invalid Date (NaN time value).
* Exceptions and rejected promises are modelled with `Except`:
  `request.json()` either yields a parsed body or the caught error's
  message string.  The embedded handler is a total function, reflecting
  that every failure path in the source is caught and resolved into a
  well-formed response.
* The current instant (`new Date()` inside `calculateAge`) is passed
  explicitly as the parameter `now`.
-/

namespace AgeGate

/-- Day-number to calendar year: `new Date(ms).getUTCFullYear()` reads the
proleptic-Gregorian year of the UTC day containing that instant, where day 0
is 1970-01-01 (ECMAScript `YearFromTime`).  All divisors below are positive,
so `/` on `Int` (euclidean division) is floor division throughout. -/
def civilYearFromDays (z : Int) : Int :=
  let zz := z + 719468
  let era := zz / 146097
  let doe := zz - era * 146097
  let yoe := (doe - doe / 1460 + doe / 36524 - doe / 146096) / 365
  let y := yoe + era * 400
  let doy := doe - (365 * yoe + yoe / 4 - yoe / 100)
  let mp := (5 * doy + 2) / 153
  let m := mp + (if mp < 10 then 3 else -9)
  if m ≤ 2 then y + 1 else y

/-- `new Date(ms).getUTCFullYear()`: the UTC calendar year of the instant
`ms` milliseconds after the epoch (ECMAScript `YearFromTime(t)` with
`Day(t) = floor(t / 86400000)`). -/
def getUTCFullYear (ms : Int) : Int :=
  civilYearFromDays (ms / 86400000)

/-- src/main.ts, `calculateAge` (lines 102-111):
`diff = now.getTime() - birthdate.getTime()`, result
`new Date(diff).getUTCFullYear() - 1970`.  `birthdate = none` models an
Invalid Date (NaN time value); then `diff` and the result are NaN. -/
def calculateAge (now : Int) (birthdate : Option Int) : Option Int :=
  match birthdate with
  | none => none
  | some b =>
    let diff := now - b
    let ageInYears := getUTCFullYear diff - 1970
    some ageInYears

/-- The external EdgeKV key/value store as the handler observes it:
whether the i-th read attempt of this request times out, and the raw text
stored under a key (none when the key is absent). -/
structure KVStore where
  timesOut : Nat → Bool
  stored : String → Option String

/-- src/main.ts line 16: `num_retries_on_timeout: 2` in the EdgeKV
constructor — additional attempts after a timing-out attempt. -/
def numRetriesOnTimeout : Nat := 2

/-- src/main.ts line 17: the per-call timeout passed to `getJson`. -/
def edgeKvTimeout : Nat := 500

/-- The numeric value of a decimal digit character, none for any other
character. -/
def digitValue (c : Char) : Option Nat :=
  if 48 ≤ c.toNat ∧ c.toNat ≤ 57 then some (c.toNat - 48) else none

/-- The value of a non-empty all-digit character list read in base 10. -/
def digitsValue (cs : List Char) : Option Nat :=
  match cs with
  | [] => none
  | _ :: _ =>
    cs.foldl
      (fun acc c =>
        match acc, digitValue c with
        | some a, some d => some (10 * a + d)
        | _, _ => none)
      (some 0)

/-- Modelled from the spec: interpretation of the stored text as an integer —
an optional leading minus sign followed by decimal digits. -/
def interpretInt (s : String) : Option Int :=
  match s.data with
  | '-' :: rest => Option.map (fun n => -(n : Int)) (digitsValue rest)
  | cs => Option.map (fun n => (n : Int)) (digitsValue cs)

/-- Modelled from the spec: `edgekv.js`, imported by src/main.ts, is not among
the sources; spec §4.2 gives its contract.  The read retries after a
timing-out attempt up to the configured retry count; the call fails when all
attempts time out, when the key is absent, or when the stored value is not
interpretable as an integer; otherwise it yields that integer. -/
def getJson (kv : KVStore) (numRetries : Nat) (key : String) : Except Unit Int :=
  if (List.range (numRetries + 1)).all kv.timesOut then Except.error ()
  else
    match kv.stored key with
    | none => Except.error ()
    | some v =>
      match interpretInt v with
      | none => Except.error ()
      | some n => Except.ok n

/-- src/main.ts lines 56-83: `minimalAge` starts at the default 18 and is
overwritten by `await edgeKv2fa.getJson(...)` when the lookup succeeds; the
`catch` only logs, so on any lookup failure the default 18 survives. -/
def minimalAgeFor (kv : KVStore) (countryCode : String) : Int :=
  match getJson kv numRetriesOnTimeout countryCode with
  | Except.ok v => v
  | Except.error _ => 18

/-- JavaScript `a || d` for `a = request.userLocation.country`: an absent
property and the empty string are both falsy, so both select the default. -/
def jsOrElse (a : Option String) (d : String) : String :=
  match a with
  | none => d
  | some v => if v = "" then d else v

/-- JavaScript `age >= minimalAge` where `age` may be NaN (`none`):
every comparison with NaN evaluates to false. -/
def jsGe (age : Option Int) (minimalAge : Int) : Bool :=
  match age with
  | none => false
  | some n => decide (minimalAge ≤ n)

/-- The response header map of src/main.ts: `Powered-By` and `content-type`
are set on line 22; `set-cookie` is absent until conditionally assigned on
line 92. -/
structure Headers where
  poweredBy : List String
  contentType : List String
  setCookie : Option String
deriving DecidableEq, Repr

/-- src/main.ts line 22: the default response header. -/
def defaultResponseHeader : Headers :=
  { poweredBy := ["Akamai EdgeWorkers: 0.0.16"]
    contentType := ["application/json"]
    setCookie := none }

/-- src/main.ts lines 26-30: the `Response` interface.  `age` is `Option Int`
because the number can be NaN (unparseable birthday). -/
structure Response where
  age : Option Int
  country : String
  message : String
deriving DecidableEq, Repr

/-- `JSON.stringify` of the possibly-NaN `age` number: NaN serializes as the
JSON literal `null`. -/
def stringifyNumber : Option Int → String
  | none => "null"
  | some n => toString n

/-- `JSON.stringify(response)` for the `Response` object (none of the strings
this program puts in `country` or `message` need JSON escaping). -/
def stringifyResponse (r : Response) : String :=
  "\x7b\"age\":" ++ stringifyNumber r.age ++ ",\"country\":\"" ++ r.country
    ++ "\",\"message\":\"" ++ r.message ++ "\"\x7d"

/-- src/main.ts line 46: the body `{"error": "<message>"}` built from the
caught parse error. -/
def errorBody (err : String) : String :=
  "\x7b\"error\": \"" ++ err ++ "\"\x7d"

/-- The incoming request as `responseProvider` consumes it.  `body` is the
outcome of `await request.json()`: on success we retain the time value of
`new Date(jsonBody['birthday'])` (`none` when the birthday field is missing
or not a parseable date, i.e. the Date is invalid); on failure, the caught
error's message string.  `country` is `request.userLocation.country`
(`none` when absent). -/
structure EWRequest where
  body : Except String (Option Int)
  country : Option String
deriving Repr

/-- The outbound response envelope produced by `createResponse`. -/
structure HttpResponse where
  status : Nat
  headers : Headers
  body : String
deriving DecidableEq, Repr

/-- src/main.ts lines 19-100, `responseProvider`: parse the body (on failure,
resolve with a 503 and the error body); read the country code with default
NL; compute the age; look up the minimal age with default 18; if
`age >= minimalAge`, add the `old_enough=yes` cookie header and overwrite the
message; respond 200 with the serialized `Response`. -/
def responseProvider (now : Int) (kv : KVStore) (request : EWRequest) : HttpResponse :=
  match request.body with
  | Except.error err =>
      { status := 503, headers := defaultResponseHeader, body := errorBody err }
  | Except.ok birthdayMs =>
      let countryCode := jsOrElse request.country ("NL")
      let age := calculateAge now birthdayMs
      let minimalAge := minimalAgeFor kv countryCode
      let pass := jsGe age minimalAge
      let responseHeader :=
        if pass then { defaultResponseHeader with setCookie := some ("old_enough=yes") }
        else defaultResponseHeader
      let response : Response :=
        { age := age
          country := countryCode
          message := if pass then "Welcome, have a drink." else "You are too young to drink!" }
      { status := 200, headers := responseHeader, body := stringifyResponse response }

/-- The `Response` object the handler serializes for a successfully parsed
body (src/main.ts lines 60-64 and 95), as a standalone function of the
handler's inputs. -/
def okResponseObject (now : Int) (kv : KVStore) (country : Option String)
    (birthdayMs : Option Int) : Response :=
  let countryCode := jsOrElse country ("NL")
  let age := calculateAge now birthdayMs
  let minimalAge := minimalAgeFor kv countryCode
  { age := age
    country := countryCode
    message := if jsGe age minimalAge then "Welcome, have a drink."
               else "You are too young to drink!" }

/-- The Age Calculator algorithm as §4.1 of the spec words it: compute the
elapsed duration in milliseconds between now and the birthdate, reinterpret
that duration as a calendar date anchored at the 1970 epoch, and subtract the
epoch year from that date's UTC year. -/
def specCalculateAge (now : Int) (birthdate : Option Int) : Option Int :=
  Option.map
    (fun b =>
      let elapsedMs := now - b
      let anchoredYear := getUTCFullYear elapsedMs
      anchoredYear - 1970)
    birthdate

/-! ### Concrete fixtures used by witnesses and counterexamples -/

/-- A store that answers immediately and maps US to the text 21. -/
def kvUS : KVStore :=
  { timesOut := fun _ => false
    stored := fun c => if c = "US" then some ("21") else none }

/-- A store that answers immediately but holds no keys. -/
def kvEmpty : KVStore :=
  { timesOut := fun _ => false
    stored := fun _ => none }

/-- A store on which every read attempt times out. -/
def kvDead : KVStore :=
  { timesOut := fun _ => true
    stored := fun _ => some ("18") }

/-- A store whose stored text is not interpretable as an integer. -/
def kvBadValue : KVStore :=
  { timesOut := fun _ => false
    stored := fun _ => some ("twentyone") }

/-- A request whose body parsed and whose birthday is 2000-01-01T00:00Z. -/
def reqAdult : EWRequest :=
  { body := Except.ok (some 946684800000), country := some ("US") }

/-- A request whose body parsed but whose birthday is not a parseable date. -/
def reqNaN : EWRequest :=
  { body := Except.ok none, country := none }

/-- The fixed current instant 2024-01-01T00:00:00Z used by witnesses. -/
def wNow : Int := 1704067200000

/-! ### Auxiliary lemmas -/

/-- Day numbers on or after the epoch lie in calendar year 1970 or later. -/
theorem civilYearFromDays_epoch_le (z : Int) (hz : 0 ≤ z) :
    1970 ≤ civilYearFromDays z := by
  unfold civilYearFromDays
  simp only []
  split <;> omega

/-! ### Claims -/

/-- C1: for every request whose body parses, the response has status 200; it
carries the marker header `set-cookie old_enough=yes` exactly when the
computed age compares `>=` against the effective minimum age, and its body is
the serialization whose message field is "Welcome, have a drink." when the
comparison holds and "You are too young to drink!" when it does not (so the
failing case carries neither the marker header nor the Welcome message). -/
theorem age_check_drives_marker_and_message (now : Int) (kv : KVStore)
    (req : EWRequest) (b : Option Int) (hb : req.body = Except.ok b) :
    (responseProvider now kv req).status = 200 ∧
    ((responseProvider now kv req).headers.setCookie = some ("old_enough=yes")
      ↔ jsGe (calculateAge now b) (minimalAgeFor kv (jsOrElse req.country ("NL"))) = true) ∧
    (responseProvider now kv req).body =
      stringifyResponse
        { age := calculateAge now b
          country := jsOrElse req.country ("NL")
          message :=
            if jsGe (calculateAge now b) (minimalAgeFor kv (jsOrElse req.country ("NL")))
            then "Welcome, have a drink." else "You are too young to drink!" } := by
  obtain ⟨body, country⟩ := req
  cases hb
  cases hpass : jsGe (calculateAge now b) (minimalAgeFor kv (jsOrElse country ("NL"))) <;>
    simp [responseProvider, hpass, defaultResponseHeader]

/-- Witness for C1: the spec's scenario — birthday 2000-01-01, country US,
store answering 21, now 2024-01-01; the age check passes. -/
theorem age_check_drives_marker_and_message_witness :
    (reqAdult.body = Except.ok (some 946684800000)) ∧
    jsGe (calculateAge wNow (some 946684800000))
      (minimalAgeFor kvUS (jsOrElse reqAdult.country ("NL"))) = true ∧
    ((responseProvider wNow kvUS reqAdult).status = 200 ∧
     ((responseProvider wNow kvUS reqAdult).headers.setCookie = some ("old_enough=yes")
       ↔ jsGe (calculateAge wNow (some 946684800000))
           (minimalAgeFor kvUS (jsOrElse reqAdult.country ("NL"))) = true) ∧
     (responseProvider wNow kvUS reqAdult).body =
       stringifyResponse
         { age := calculateAge wNow (some 946684800000)
           country := jsOrElse reqAdult.country ("NL")
           message :=
             if jsGe (calculateAge wNow (some 946684800000))
                 (minimalAgeFor kvUS (jsOrElse reqAdult.country ("NL")))
             then "Welcome, have a drink." else "You are too young to drink!" }) :=
  ⟨rfl, by decide,
    age_check_drives_marker_and_message wNow kvUS reqAdult (some 946684800000) rfl⟩

/-- C2: for every request whose body cannot be parsed as JSON, the handler
returns (as a resolved value, never an unhandled fault: the embedded handler
is a total function) status 503, the body of shape `\x7b"error": "<message>"\x7d`,
and the default Powered-By and content-type headers. -/
theorem parse_failure_yields_structured_503 (now : Int) (kv : KVStore)
    (req : EWRequest) (e : String) (he : req.body = Except.error e) :
    responseProvider now kv req =
      { status := 503, headers := defaultResponseHeader, body := errorBody e } := by
  obtain ⟨body, country⟩ := req
  cases he
  rfl

/-- Witness for C2: a concrete malformed-body request. -/
theorem parse_failure_yields_structured_503_witness :
    ((⟨Except.error ("SyntaxError: Unexpected token"), none⟩ : EWRequest).body
        = Except.error ("SyntaxError: Unexpected token")) ∧
    responseProvider 0 kvEmpty ⟨Except.error ("SyntaxError: Unexpected token"), none⟩ =
      { status := 503, headers := defaultResponseHeader
        body := errorBody ("SyntaxError: Unexpected token") } :=
  ⟨rfl, parse_failure_yields_structured_503 0 kvEmpty _ _ rfl⟩

/-- C3: whenever the store lookup fails — every attempt times out, the key is
absent, or the stored text is not interpretable as an integer — the effective
minimum age is exactly 18. -/
theorem lookup_failure_defaults_to_18 (kv : KVStore) (code : String)
    (h : (List.range (numRetriesOnTimeout + 1)).all kv.timesOut = true
        ∨ kv.stored code = none
        ∨ ∃ v, kv.stored code = some v ∧ interpretInt v = none) :
    minimalAgeFor kv code = 18 := by
  have hfail : getJson kv numRetriesOnTimeout code = Except.error () := by
    unfold getJson
    rcases h with h | h | ⟨v, hv, hi⟩
    · simp [h]
    · cases htm : (List.range (numRetriesOnTimeout + 1)).all kv.timesOut <;>
        simp [htm, h]
    · cases htm : (List.range (numRetriesOnTimeout + 1)).all kv.timesOut <;>
        simp [htm, hv, hi]
  unfold minimalAgeFor
  rw [hfail]

/-- Witness for C3: a store holding the non-integer text twentyone. -/
theorem lookup_failure_defaults_to_18_witness :
    ((List.range (numRetriesOnTimeout + 1)).all kvBadValue.timesOut = true
      ∨ kvBadValue.stored ("NL") = none
      ∨ ∃ v, kvBadValue.stored ("NL") = some v ∧ interpretInt v = none) ∧
    minimalAgeFor kvBadValue ("NL") = 18 :=
  ⟨Or.inr (Or.inr ⟨("twentyone"), rfl, by decide⟩),
    lookup_failure_defaults_to_18 kvBadValue ("NL")
      (Or.inr (Or.inr ⟨("twentyone"), rfl, by decide⟩))⟩

/-- C4: for every request whose body parses as JSON, the response status is
200, whatever the policy store does. -/
theorem valid_body_always_200 (now : Int) (kv : KVStore) (req : EWRequest)
    (b : Option Int) (hb : req.body = Except.ok b) :
    (responseProvider now kv req).status = 200 := by
  obtain ⟨body, country⟩ := req
  cases hb
  rfl

/-- Witness for C4: a valid body against a store on which every attempt
times out still gets a 200. -/
theorem valid_body_always_200_witness :
    (reqAdult.body = Except.ok (some 946684800000)) ∧
    (responseProvider wNow kvDead reqAdult).status = 200 :=
  ⟨rfl, valid_body_always_200 wNow kvDead reqAdult (some 946684800000) rfl⟩

/-- C5 counterexample: a birthdate after the current instant yields a
negative age — with now at the epoch and birthday 1971-01-01T00:00Z
(31622400000 ms) the computed age is -2, so the age is not always
non-negative. -/
theorem age_negative_for_future_birthdate :
    calculateAge 0 (some 31622400000) = some (-2) ∧ ¬ (0 ≤ (-2 : Int)) :=
  ⟨by decide, by decide⟩

/-- C5 amended: for every fixed current instant and every parseable birthdate
not after it, the computed age is a non-negative integer (and it is by
construction a deterministic function of the two instants). -/
theorem age_nonneg_for_past_birthdates (now b : Int) (hb : b ≤ now) :
    ∃ a : Int, calculateAge now (some b) = some a ∧ 0 ≤ a := by
  refine ⟨getUTCFullYear (now - b) - 1970, rfl, ?_⟩
  have hd : 0 ≤ (now - b) / 86400000 := Int.ediv_nonneg (by omega) (by norm_num)
  have hy := civilYearFromDays_epoch_le ((now - b) / 86400000) hd
  unfold getUTCFullYear
  omega

/-- Witness for C5 amended: birthday 2000-01-01, now 2024-01-01. -/
theorem age_nonneg_for_past_birthdates_witness :
    (946684800000 : Int) ≤ 1704067200000 ∧
    ∃ a : Int, calculateAge 1704067200000 (some 946684800000) = some a ∧ 0 ≤ a :=
  ⟨by decide, age_nonneg_for_past_birthdates 1704067200000 946684800000 (by decide)⟩

/-- C6: a parsed body with an unparseable birthday gives a NaN age, the
comparison against every integer minimum age fails, and the response carries
neither the marker header nor the Welcome message. -/
theorem unparseable_birthday_denies (now : Int) (kv : KVStore) (req : EWRequest)
    (hb : req.body = Except.ok none) :
    calculateAge now none = none ∧
    (∀ m : Int, jsGe (calculateAge now none) m = false) ∧
    (responseProvider now kv req).headers.setCookie = none ∧
    (responseProvider now kv req).body =
      stringifyResponse
        { age := none
          country := jsOrElse req.country ("NL")
          message := "You are too young to drink!" } := by
  obtain ⟨body, country⟩ := req
  cases hb
  exact ⟨rfl, fun m => rfl, rfl, rfl⟩

/-- Witness for C6: an invalid birthday against the responsive US store. -/
theorem unparseable_birthday_denies_witness :
    (reqNaN.body = Except.ok none) ∧
    (calculateAge wNow none = none ∧
     (∀ m : Int, jsGe (calculateAge wNow none) m = false) ∧
     (responseProvider wNow kvUS reqNaN).headers.setCookie = none ∧
     (responseProvider wNow kvUS reqNaN).body =
       stringifyResponse
         { age := none
           country := jsOrElse reqNaN.country ("NL")
           message := "You are too young to drink!" }) :=
  ⟨rfl, unparseable_birthday_denies wNow kvUS reqNaN rfl⟩

/-- C7: `calculateAge` computes exactly the algorithm the spec describes:
elapsed milliseconds between now and the birthdate, reinterpreted as a
calendar date anchored at the 1970 epoch, minus the epoch year 1970. -/
theorem calculateAge_matches_spec_algorithm (now : Int) (birthdate : Option Int) :
    calculateAge now birthdate = specCalculateAge now birthdate := by
  cases birthdate <;> rfl

/-- C8 counterexample: a parsed body whose birthday is unparseable produces a
200 response whose serialized age field is the JSON literal null, not an
integer, so the body is not always the serialization of an object whose age
field is an integer. -/
theorem nan_age_serializes_as_null :
    (responseProvider 0 kvEmpty reqNaN).status = 200 ∧
    (responseProvider 0 kvEmpty reqNaN).body =
      stringifyResponse (okResponseObject 0 kvEmpty none none) ∧
    stringifyNumber (okResponseObject 0 kvEmpty none none).age = "null" ∧
    ¬ ∃ n : Int, (okResponseObject 0 kvEmpty none none).age = some n := by
  refine ⟨rfl, rfl, rfl, ?_⟩
  rintro ⟨n, hn⟩
  exact Option.noConfusion hn

/-- C8 amended: for every request whose body parses as JSON, the 200 response
body is the JSON serialization of an object with exactly the fields age,
country (the code used for the lookup) and message; the age field is an
integer whenever the birthday is a parseable date, and serializes as the JSON
literal null otherwise. -/
theorem ok_body_shape_amended (now : Int) (kv : KVStore) (req : EWRequest)
    (b : Option Int) (hb : req.body = Except.ok b) :
    (responseProvider now kv req).status = 200 ∧
    (responseProvider now kv req).body =
      stringifyResponse (okResponseObject now kv req.country b) ∧
    (okResponseObject now kv req.country b).country = jsOrElse req.country ("NL") ∧
    (∀ ms : Int, b = some ms →
      (okResponseObject now kv req.country b).age =
        some (getUTCFullYear (now - ms) - 1970)) ∧
    (b = none → stringifyNumber (okResponseObject now kv req.country b).age = "null") := by
  obtain ⟨body, country⟩ := req
  cases hb
  refine ⟨rfl, rfl, rfl, ?_, ?_⟩
  · rintro ms rfl
    rfl
  · rintro rfl
    rfl

/-- Witness for C8 amended: the adult request from the spec scenario. -/
theorem ok_body_shape_amended_witness :
    (reqAdult.body = Except.ok (some 946684800000)) ∧
    ((responseProvider wNow kvUS reqAdult).status = 200 ∧
     (responseProvider wNow kvUS reqAdult).body =
       stringifyResponse (okResponseObject wNow kvUS reqAdult.country (some 946684800000)) ∧
     (okResponseObject wNow kvUS reqAdult.country (some 946684800000)).country
        = jsOrElse reqAdult.country ("NL") ∧
     (∀ ms : Int, (some 946684800000 : Option Int) = some ms →
       (okResponseObject wNow kvUS reqAdult.country (some 946684800000)).age =
         some (getUTCFullYear (wNow - ms) - 1970)) ∧
     ((some 946684800000 : Option Int) = none →
       stringifyNumber (okResponseObject wNow kvUS reqAdult.country (some 946684800000)).age
         = "null")) :=
  ⟨rfl, ok_body_shape_amended wNow kvUS reqAdult (some 946684800000) rfl⟩

/-- C9: the handler is deterministic — two invocations with the same body
parse outcome, the same geolocation country, the same store behavior and the
same fixed current instant produce identical responses (status, headers and
serialized body). -/
theorem handler_deterministic (now1 now2 : Int) (kv1 kv2 : KVStore)
    (req1 req2 : EWRequest) (hnow : now1 = now2) (hkv : kv1 = kv2)
    (hbody : req1.body = req2.body) (hcountry : req1.country = req2.country) :
    responseProvider now1 kv1 req1 = responseProvider now2 kv2 req2 := by
  obtain ⟨b1, c1⟩ := req1
  obtain ⟨b2, c2⟩ := req2
  cases hnow
  cases hkv
  cases hbody
  cases hcountry
  rfl

/-- Witness for C9: two identical concrete invocations. -/
theorem handler_deterministic_witness :
    responseProvider wNow kvUS reqAdult = responseProvider wNow kvUS reqAdult :=
  handler_deterministic wNow wNow kvUS kvUS reqAdult reqAdult rfl rfl rfl rfl

/-- C10: a present-but-empty geolocation country code behaves exactly as an
absent one: the handler produces the identical response, and the country it
uses and reports is the default NL. -/
theorem empty_country_defaults_to_NL (now : Int) (kv : KVStore)
    (body : Except String (Option Int)) :
    responseProvider now kv { body := body, country := some ("") } =
      responseProvider now kv { body := body, country := none } ∧
    jsOrElse (some ("")) ("NL") = "NL" := by
  constructor
  · cases body <;> rfl
  · rfl

end AgeGate
